import Mathlib

/-!
Shallow embedding of `src/main.ts` of the cypress-slack-video-upload-action
repository: a GitHub action that posts/updates Slack status messages and
uploads Cypress artifacts to a thread.  The remote Slack API, the process
environment and the filesystem are modelled as an oracle (`Env`); each run
produces the ordered trace of remote calls / outputs (`Event`) together with
an `Outcome` (normal completion, or `core.setFailed` with its message).
-/

deriving instance DecidableEq for Except

namespace SlackAction

/-- A channel as returned by the Slack `conversations.list` call:
display name and opaque identifier. -/
structure SlackChannel where
  name : String
  id : String
deriving DecidableEq, Repr

/-- Payload of a `chat.postMessage` call.  The start message carries the
attachment fields (color, header, the three mrkdwn section fields); the
pointer message of upload mode carries plain `text` and a `thread_ts`. -/
structure PostPayload where
  channel : String
  threadTs : Option String
  color : Option String
  headerText : Option String
  runUrlField : Option String
  statusField : Option String
  authorField : Option String
  text : Option String
deriving DecidableEq, Repr

/-- One observable remote call or action output.  `deleteFile` is in the
alphabet so that "no compensating delete call is issued" is a statement about
traces, not about an impossible constructor; the source never emits it. -/
inductive Event where
  | listChannels : Event
  | postMessage (payload : PostPayload) : Event
  | updateMessage (channel : String) (ts : String) (color : String)
      (headerText : String) (runUrlField : String) (statusField : String)
      (authorField : String) : Event
  | uploadFile (filename : String) (path : String) (threadTs : String)
      (channels : String) : Event
  | deleteFile (file : String) : Event
  | setOutput (key : String) (value : String) : Event
deriving DecidableEq, Repr

/-- Result of one invocation: normal completion, or `core.setFailed msg`. -/
inductive Outcome where
  | success : Outcome
  | failed (msg : String) : Outcome
deriving DecidableEq, Repr

/-- The action inputs as read by `core.getInput` (lines 27-34): absent inputs
are the empty string, exactly as `getInput` yields. -/
structure Inputs where
  action : String
  token : String
  channel : String
  author : String
  screenshots : String
  videos : String
  messageText : String
  threadId : String
  status : String

/-- The external world: responses of the remote Slack API, the
`process.env` variables, and the filesystem seen by the directory walk.
`fs` maps a root directory to the ordered list of relative file paths
beneath it, or `none` when the directory does not exist.  `uploadResult`
is keyed by the full path `dir ++ "/" ++ file` passed to
`createReadStream`. -/
structure Env where
  githubServerUrl : Option String
  githubRepository : Option String
  githubRunID : Option String
  listChannelsResult : Except String (List SlackChannel)
  postStartResult : Except String String
  pointerPostResult : Except String Unit
  updateResult : Except String Unit
  uploadResult : String → Except String Unit
  fs : String → Option (List String)

/-- JS `toLowerCase` as used on the action input (line 44), character by
character; the mode names it is compared against are ASCII. -/
def jsToLower (s : String) : String := String.mk (s.data.map Char.toLower)

/-- The apostrophe character, as a string (used in error messages). -/
def apos : String := String.singleton (Char.ofNat 39)

/-- The JS expression reading `process.env.X` with empty-string default (lines 66-68). -/
def envOr (v : Option String) : String := v.getD ""

/-- The screenshots input with its default `cypress/screenshots` (line 31). -/
def effScreenshotsDir (inp : Inputs) : String :=
  if inp.screenshots = "" then "cypress/screenshots" else inp.screenshots

/-- The videos input with its default `cypress/videos` (line 32). -/
def effVideosDir (inp : Inputs) : String :=
  if inp.videos = "" then "cypress/videos" else inp.videos

/-- Modelled from the spec: the directory-walk primitive (`walk-sync`, a
third-party library whose source is not part of this repository) enumerates
files under a root recursively, filtered by the extension glob
(`**/*.mp4` / `**/*.png`), yielding an ordered sequence of relative paths,
and yields the empty sequence when the root directory does not exist
("empty sequence if the root does not exist or contains no matches
(absence of a root is not itself an error)").  The extension filter is a
suffix test on the character list. -/
def matchesExt (f ext : String) : Bool := ext.data.isSuffixOf f.data

/-- Modelled from the spec (continued): filtering a walk result by the
fixed extension glob. -/
def walkSync (fs : String → Option (List String)) (dir : String)
    (ext : String) : List String :=
  match fs dir with
  | none => []
  | some files => files.filter (fun f => matchesExt f ext)

/-- Embedding of `getChannelId` (lines 6-23): one `conversations.list`
round trip, exact (case-sensitive) first match on `name`; on a missing
channel or a thrown listing error, `core.setFailed` is called with the
message carried here in the `error` case.  The single `listChannels`
event this function always performs is emitted by `run` at the call
site. -/
def getChannelId (channelName : String) (env : Env) : Except String String :=
  match env.listChannelsResult with
  | Except.error e => Except.error ("Failed to fetch channel ID: " ++ e)
  | Except.ok channels =>
    match channels.find? (fun c => c.name == channelName) with
    | some c => Except.ok c.id
    | none =>
        Except.error ("Channel " ++ apos ++ channelName ++ apos ++ " not found.")

/-- JS value of the status input or-defaulted to `false` (line 111): a string,
or the boolean `false` when the input is empty. -/
inductive StrOrFalse where
  | str (s : String) : StrOrFalse
  | fls : StrOrFalse
deriving DecidableEq, Repr

/-- Reading the status input, empty coerced to the boolean `false` (line 111). -/
def getStatusInput (statusInput : String) : StrOrFalse :=
  if statusInput = "" then StrOrFalse.fls else StrOrFalse.str statusInput

/-- JS strict equality `runStatus === s` where `runStatus : string | false`:
`false === s` is `false` for every string `s`. -/
def StrOrFalse.eqString : StrOrFalse → String → Bool
  | StrOrFalse.str t, s => t == s
  | StrOrFalse.fls, _ => false

/-- JS template-literal rendering of `string | false`: the boolean `false`
interpolates as the text "false". -/
def StrOrFalse.render : StrOrFalse → String
  | StrOrFalse.str s => s
  | StrOrFalse.fls => "false"

/-- The `*Run URL:*` mrkdwn field (lines 91 and 135). -/
def runUrlText (env : Env) : String :=
  "*Run URL:* <" ++ envOr env.githubServerUrl ++ "/" ++
    envOr env.githubRepository ++ "/actions/runs/" ++ envOr env.githubRunID ++
    "|Click!>"

/-- The attachment of the start message (lines 71-106). -/
def startPayload (inp : Inputs) (env : Env) (channelID : String) : PostPayload where
  channel := channelID
  threadTs := none
  color := some "#f2c744"
  headerText := some (":rocket: " ++ inp.messageText)
  runUrlField := some (runUrlText env)
  statusField := some "*Status:* In progress"
  authorField := some ("*Author:* @" ++ inp.author)
  text := none

/-- The start branch, taken on exact equality of `action` with `start`
(lines 70-109): post the start message; on
success emit the returned `ts` as the `thread-id` output. -/
def startBranch (inp : Inputs) (env : Env) (channelID : String) :
    List Event × Outcome :=
  match env.postStartResult with
  | Except.error e =>
      ([Event.postMessage (startPayload inp env channelID)], Outcome.failed e)
  | Except.ok ts =>
      ([Event.postMessage (startPayload inp env channelID),
        Event.setOutput "thread-id" ts], Outcome.success)

/-- The finish branch, taken on exact equality of `action` with `finish`
(lines 110-151): one `chat.update` on the supplied thread id, with icon and
color selected by strict equality of `runStatus` with `success`, and the
status field interpolated from `runStatus`. -/
def finishBranch (inp : Inputs) (env : Env) (channelID : String) :
    List Event × Outcome :=
  let runStatus := getStatusInput inp.status
  let statusColor := if runStatus.eqString "success" then "#64f244" else "#e30d0d"
  let statusIcon := if runStatus.eqString "success" then ":ok_hand:" else ":poop:"
  let ev := Event.updateMessage channelID inp.threadId statusColor
      (statusIcon ++ " " ++ inp.messageText) (runUrlText env)
      ("*Status:* " ++ runStatus.render) ("*Author:* @" ++ inp.author)
  match env.updateResult with
  | Except.error e => ([ev], Outcome.failed e)
  | Except.ok _ => ([ev], Outcome.success)

/-- The pointer message posted into the thread before uploads (lines 163-169). -/
def pointerPayload (inp : Inputs) (channelID : String) : PostPayload where
  channel := channelID
  threadTs := some inp.threadId
  color := none
  headerText := none
  runUrlField := none
  statusField := none
  authorField := none
  text := some ("@" ++ inp.author ++ " check this out :point_down:")

/-- The `files.upload` calls of one `Promise.all` group, in list order:
each file of the group is initiated (lines 178-189 and 197-208). -/
def uploadEvents (dir : String) (threadTs : String) (channelID : String)
    (files : List String) : List Event :=
  files.map (fun f => Event.uploadFile f (dir ++ "/" ++ f) threadTs channelID)

/-- The error a `Promise.all` upload group rejects with, if any: the first
(in list order) failing upload, with its message.  The source leaves the tie-break
among simultaneous rejections timing-dependent; taking the first in list
order is a determinization that agrees with it whenever at most one upload
of the group fails. -/
def groupFirstError (env : Env) (dir : String) (files : List String) :
    Option String :=
  (files.filterMap (fun f =>
    match env.uploadResult (dir ++ "/" ++ f) with
    | Except.error e => some e
    | Except.ok _ => none)).head?

/-- Upload branch (lines 154-211), reached when neither `start` nor `finish`
matched exactly: walk both roots, short-circuit when both are empty, post
the pointer message, then the screenshot group, then the video group.  The
source guards each group with `length > 0`; a skipped group contributes no
events and no error, which coincides with the unguarded group on `[]`. -/
def uploadBranch (inp : Inputs) (env : Env) (channelID : String) :
    List Event × Outcome :=
  let videos := walkSync env.fs (effVideosDir inp) ".mp4"
  let screenshots := walkSync env.fs (effScreenshotsDir inp) ".png"
  if videos.length ≤ 0 ∧ screenshots.length ≤ 0 then
    ([], Outcome.success)
  else
    match env.pointerPostResult with
    | Except.error e =>
        ([Event.postMessage (pointerPayload inp channelID)], Outcome.failed e)
    | Except.ok _ =>
      match groupFirstError env (effScreenshotsDir inp) screenshots with
      | some e =>
          (Event.postMessage (pointerPayload inp channelID) ::
            uploadEvents (effScreenshotsDir inp) inp.threadId channelID screenshots,
           Outcome.failed e)
      | none =>
        match groupFirstError env (effVideosDir inp) videos with
        | some e =>
            (Event.postMessage (pointerPayload inp channelID) ::
              uploadEvents (effScreenshotsDir inp) inp.threadId channelID screenshots ++
              uploadEvents (effVideosDir inp) inp.threadId channelID videos,
             Outcome.failed e)
        | none =>
            (Event.postMessage (pointerPayload inp channelID) ::
              uploadEvents (effScreenshotsDir inp) inp.threadId channelID screenshots ++
              uploadEvents (effVideosDir inp) inp.threadId channelID videos,
             Outcome.success)

/-- Prefix the trace of a branch with the `conversations.list` call that
`getChannelId` performed. -/
def withResolve (b : List Event × Outcome) : List Event × Outcome :=
  (Event.listChannels :: b.1, b.2)

/-- The case-sensitive branch dispatch of `run` (lines 70, 110): `start`
and `finish` are selected by exact string equality and everything else
falls through to the upload path (lines 154-211). -/
def dispatch (inp : Inputs) (env : Env) (channelID : String) :
    List Event × Outcome :=
  if inp.action = "start" then
    withResolve (startBranch inp env channelID)
  else if inp.action = "finish" then
    withResolve (finishBranch inp env channelID)
  else
    withResolve (uploadBranch inp env channelID)

/-- Channel resolution followed by the dispatch (lines 61-64): on a
resolution failure the run stops after the single listing call. -/
def afterResolve (inp : Inputs) (env : Env) : List Event × Outcome :=
  match getChannelId inp.channel env with
  | Except.error e => ([Event.listChannels], Outcome.failed e)
  | Except.ok channelID => dispatch inp env channelID

/-- Embedding of `run` (lines 25-217): mode validation on
`action.toLowerCase()` (line 44), thread-id validation (lines 49-55),
then channel resolution and the branch dispatch. -/
def run (inp : Inputs) (env : Env) : List Event × Outcome :=
  if ¬ (jsToLower inp.action = "start" ∨ jsToLower inp.action = "upload" ∨
        jsToLower inp.action = "finish") then
    ([], Outcome.failed ("Unknown action: " ++ inp.action))
  else if (jsToLower inp.action = "upload" ∨ jsToLower inp.action = "finish") ∧
      inp.threadId = "" then
    ([], Outcome.failed ("Action: " ++ inp.action ++ " requires thread-id."))
  else
    afterResolve inp env

/-- Is this event a `chat.postMessage` call? -/
def Event.isPost : Event → Bool
  | Event.postMessage _ => true
  | _ => false

/-- Is this event a `chat.update` call? -/
def Event.isUpdate : Event → Bool
  | Event.updateMessage _ _ _ _ _ _ _ => true
  | _ => false

/-- Is this event a `files.upload` call? -/
def Event.isUpload : Event → Bool
  | Event.uploadFile _ _ _ _ => true
  | _ => false

/-- Is this event a file-deletion call? -/
def Event.isDelete : Event → Bool
  | Event.deleteFile _ => true
  | _ => false

/-- Is this event a `core.setOutput`? -/
def Event.isOutput : Event → Bool
  | Event.setOutput _ _ => true
  | _ => false

/-- A concrete channel for concrete evaluations. -/
def sampleChannel : SlackChannel := ⟨"ci", "C123"⟩

/-- A concrete oracle: one visible channel, every remote call succeeds,
no artifact root exists. -/
def baseEnv : Env where
  githubServerUrl := some "https://gh.example"
  githubRepository := some "acme/app"
  githubRunID := some "42"
  listChannelsResult := Except.ok [sampleChannel]
  postStartResult := Except.ok "169000.1"
  pointerPostResult := Except.ok ()
  updateResult := Except.ok ()
  uploadResult := fun _ => Except.ok ()
  fs := fun _ => none

/-- Concrete inputs for concrete evaluations. -/
def baseInputs : Inputs where
  action := "start"
  token := "tok"
  channel := "ci"
  author := "alice"
  screenshots := ""
  videos := ""
  messageText := "Deploy"
  threadId := ""
  status := ""

/-- A concrete filesystem: both default artifact roots exist, with two
matching screenshots (plus one non-matching file) and one matching video. -/
def artifactFS : String → Option (List String) := fun d =>
  if d = "cypress/screenshots" then some ["a.png", "notes.txt", "b.png"]
  else if d = "cypress/videos" then some ["v.mp4"]
  else none

/-- Concrete upload-mode inputs with a thread id. -/
def uploadInp : Inputs := { baseInputs with action := "upload", threadId := "t1" }

/-- Concrete oracle whose artifact roots hold the `artifactFS` files. -/
def artEnv : Env := { baseEnv with fs := artifactFS }

/-- Concrete oracle where uploading the second screenshot fails. -/
def failEnv : Env :=
  { artEnv with uploadResult := fun p =>
      if p = "cypress/screenshots/b.png" then Except.error "boom"
      else Except.ok () }

/-- Concrete oracle whose channel listing holds a decoy first, then two
channels named `ci` (first match must win). -/
def dupChannels : List SlackChannel :=
  [⟨"dev", "C0"⟩, sampleChannel, ⟨"ci", "C999"⟩]

/-- Concrete oracle listing the `dupChannels`. -/
def dupEnv : Env :=
  { baseEnv with listChannelsResult := Except.ok dupChannels }

/-- Concrete finish-mode inputs with a thread id and status `failure`. -/
def finishFailInp : Inputs :=
  { baseInputs with action := "finish", threadId := "169000.1", status := "failure" }

/-- Concrete finish-mode inputs with a thread id and the status input left
empty. -/
def finishEmptyInp : Inputs :=
  { baseInputs with action := "finish", threadId := "169000.1" }

/-- Concrete oracle whose artifact roots exist but hold no matching file. -/
def noMatchEnv : Env :=
  { baseEnv with fs := fun d =>
      if d = "cypress/screenshots" then some ["readme.txt"]
      else if d = "cypress/videos" then some []
      else none }

/- ------------------------------------------------------------------
Helper lemmas about the control flow of `run`, shared by the claim
theorems below.
------------------------------------------------------------------ -/

theorem run_invalid (inp : Inputs) (env : Env)
    (h : ¬ (jsToLower inp.action = "start" ∨ jsToLower inp.action = "upload" ∨
        jsToLower inp.action = "finish")) :
    run inp env = ([], Outcome.failed ("Unknown action: " ++ inp.action)) := by
  unfold run
  rw [if_pos h]

theorem run_nothread (inp : Inputs) (env : Env)
    (h1 : jsToLower inp.action = "start" ∨ jsToLower inp.action = "upload" ∨
        jsToLower inp.action = "finish")
    (h2 : jsToLower inp.action = "upload" ∨ jsToLower inp.action = "finish")
    (h3 : inp.threadId = "") :
    run inp env =
      ([], Outcome.failed ("Action: " ++ inp.action ++ " requires thread-id.")) := by
  unfold run
  rw [if_neg (not_not_intro h1), if_pos ⟨h2, h3⟩]

theorem run_valid (inp : Inputs) (env : Env)
    (h1 : jsToLower inp.action = "start" ∨ jsToLower inp.action = "upload" ∨
        jsToLower inp.action = "finish")
    (h2 : ¬ ((jsToLower inp.action = "upload" ∨ jsToLower inp.action = "finish") ∧
        inp.threadId = "")) :
    run inp env = afterResolve inp env := by
  unfold run
  rw [if_neg (not_not_intro h1), if_neg h2]

theorem afterResolve_error (inp : Inputs) (env : Env) (e : String)
    (he : getChannelId inp.channel env = Except.error e) :
    afterResolve inp env = ([Event.listChannels], Outcome.failed e) := by
  unfold afterResolve
  rw [he]

theorem afterResolve_ok (inp : Inputs) (env : Env) (cid : String)
    (hid : getChannelId inp.channel env = Except.ok cid) :
    afterResolve inp env = dispatch inp env cid := by
  unfold afterResolve
  rw [hid]

theorem dispatch_start (inp : Inputs) (env : Env) (cid : String)
    (ha : inp.action = "start") :
    dispatch inp env cid = withResolve (startBranch inp env cid) := by
  unfold dispatch
  rw [if_pos ha]

theorem dispatch_finish (inp : Inputs) (env : Env) (cid : String)
    (ha : inp.action = "finish") :
    dispatch inp env cid = withResolve (finishBranch inp env cid) := by
  unfold dispatch
  rw [if_neg (by simp [ha]), if_pos ha]

theorem dispatch_other (inp : Inputs) (env : Env) (cid : String)
    (h3 : inp.action ≠ "start") (h4 : inp.action ≠ "finish") :
    dispatch inp env cid = withResolve (uploadBranch inp env cid) := by
  unfold dispatch
  rw [if_neg h3, if_neg h4]

theorem jsToLower_start : jsToLower "start" = "start" := by decide

theorem jsToLower_upload : jsToLower "upload" = "upload" := by decide

theorem jsToLower_finish : jsToLower "finish" = "finish" := by decide

theorem run_start (inp : Inputs) (env : Env) (cid : String)
    (ha : inp.action = "start")
    (hid : getChannelId inp.channel env = Except.ok cid) :
    run inp env = withResolve (startBranch inp env cid) := by
  have h1 : jsToLower inp.action = "start" := by rw [ha, jsToLower_start]
  have h2 : ¬ ((jsToLower inp.action = "upload" ∨ jsToLower inp.action = "finish") ∧
      inp.threadId = "") := by
    rintro ⟨h | h, -⟩ <;> rw [h1] at h <;> exact absurd h (by decide)
  rw [run_valid inp env (Or.inl h1) h2, afterResolve_ok inp env cid hid,
    dispatch_start inp env cid ha]

theorem run_finish (inp : Inputs) (env : Env) (cid : String)
    (ha : inp.action = "finish") (ht : inp.threadId ≠ "")
    (hid : getChannelId inp.channel env = Except.ok cid) :
    run inp env = withResolve (finishBranch inp env cid) := by
  have h1 : jsToLower inp.action = "finish" := by rw [ha, jsToLower_finish]
  rw [run_valid inp env (Or.inr (Or.inr h1)) (fun hc => ht hc.2),
    afterResolve_ok inp env cid hid, dispatch_finish inp env cid ha]

theorem run_upload (inp : Inputs) (env : Env) (cid : String)
    (ha : inp.action = "upload") (ht : inp.threadId ≠ "")
    (hid : getChannelId inp.channel env = Except.ok cid) :
    run inp env = withResolve (uploadBranch inp env cid) := by
  have h1 : jsToLower inp.action = "upload" := by rw [ha, jsToLower_upload]
  have h3 : inp.action ≠ "start" := by rw [ha]; decide
  have h4 : inp.action ≠ "finish" := by rw [ha]; decide
  rw [run_valid inp env (Or.inr (Or.inl h1)) (fun hc => ht hc.2),
    afterResolve_ok inp env cid hid, dispatch_other inp env cid h3 h4]

theorem getStatusInput_eqString_success (s : String) :
    (getStatusInput s).eqString "success" = (s == "success") := by
  by_cases hs : s = ""
  · subst hs; decide
  · simp [getStatusInput, hs, StrOrFalse.eqString]

theorem getStatusInput_render (s : String) :
    (getStatusInput s).render = if s = "" then "false" else s := by
  by_cases hs : s = "" <;> simp [getStatusInput, hs, StrOrFalse.render]

theorem walkSync_absent (fs : String → Option (List String)) (dir ext : String)
    (h : fs dir = none) : walkSync fs dir ext = [] := by
  unfold walkSync
  rw [h]

theorem uploadBranch_empty (inp : Inputs) (env : Env) (cid : String)
    (hv : walkSync env.fs (effVideosDir inp) ".mp4" = [])
    (hs : walkSync env.fs (effScreenshotsDir inp) ".png" = []) :
    uploadBranch inp env cid = ([], Outcome.success) := by
  unfold uploadBranch
  rw [hv, hs]
  rfl

theorem groupFirstError_none (env : Env) (dir : String) (files : List String)
    (h : ∀ f ∈ files, env.uploadResult (dir ++ "/" ++ f) = Except.ok ()) :
    groupFirstError env dir files = none := by
  induction files with
  | nil => rfl
  | cons a l ih =>
    have ha := h a (List.mem_cons_self a l)
    have ih2 := ih (fun f hf => h f (List.mem_cons_of_mem a hf))
    unfold groupFirstError at ih2 ⊢
    simp only [List.filterMap_cons, ha]
    exact ih2

theorem groupFirstError_single (env : Env) (dir : String) (files : List String)
    (s e : String) (hmem : s ∈ files)
    (he : env.uploadResult (dir ++ "/" ++ s) = Except.error e)
    (hrest : ∀ t ∈ files, t ≠ s → env.uploadResult (dir ++ "/" ++ t) = Except.ok ()) :
    groupFirstError env dir files = some e := by
  induction files with
  | nil => cases hmem
  | cons a l ih =>
    by_cases has : a = s
    · subst has
      unfold groupFirstError
      simp only [List.filterMap_cons, he]
      rfl
    · have ha := hrest a (List.mem_cons_self a l) has
      have hmem2 : s ∈ l := by
        rcases List.mem_cons.mp hmem with h1 | h2
        · exact absurd h1.symm has
        · exact h2
      have ih2 := ih hmem2 (fun t ht hts => hrest t (List.mem_cons_of_mem a ht) hts)
      unfold groupFirstError at ih2 ⊢
      simp only [List.filterMap_cons, ha]
      exact ih2

theorem uploadBranch_sok (inp : Inputs) (env : Env) (cid : String)
    (S V : List String)
    (hV : walkSync env.fs (effVideosDir inp) ".mp4" = V)
    (hS : walkSync env.fs (effScreenshotsDir inp) ".png" = S)
    (hne : ¬ (V.length ≤ 0 ∧ S.length ≤ 0))
    (hp : env.pointerPostResult = Except.ok ())
    (hsok : groupFirstError env (effScreenshotsDir inp) S = none) :
    (uploadBranch inp env cid).1 =
      Event.postMessage (pointerPayload inp cid) ::
        uploadEvents (effScreenshotsDir inp) inp.threadId cid S ++
        uploadEvents (effVideosDir inp) inp.threadId cid V
    ∧ (uploadBranch inp env cid).2 =
        (match groupFirstError env (effVideosDir inp) V with
         | some e => Outcome.failed e
         | none => Outcome.success) := by
  unfold uploadBranch
  rw [hV, hS, if_neg hne, hp, hsok]
  cases hv : groupFirstError env (effVideosDir inp) V with
  | none => exact ⟨rfl, rfl⟩
  | some e => exact ⟨rfl, rfl⟩

theorem uploadBranch_sfail (inp : Inputs) (env : Env) (cid : String)
    (S V : List String) (e : String)
    (hV : walkSync env.fs (effVideosDir inp) ".mp4" = V)
    (hS : walkSync env.fs (effScreenshotsDir inp) ".png" = S)
    (hne : ¬ (V.length ≤ 0 ∧ S.length ≤ 0))
    (hp : env.pointerPostResult = Except.ok ())
    (hserr : groupFirstError env (effScreenshotsDir inp) S = some e) :
    uploadBranch inp env cid =
      (Event.postMessage (pointerPayload inp cid) ::
        uploadEvents (effScreenshotsDir inp) inp.threadId cid S,
       Outcome.failed e) := by
  unfold uploadBranch
  rw [hV, hS, if_neg hne, hp, hserr]

theorem countP_isPost_uploadEvents (dir t c : String) (files : List String) :
    (uploadEvents dir t c files).countP (fun e => e.isPost) = 0 := by
  induction files with
  | nil => rfl
  | cons a l ih =>
    unfold uploadEvents at ih ⊢
    simp only [List.map_cons, List.countP_cons, ih]
    rfl

theorem isDelete_uploadEvents (dir t c : String) (files : List String)
    (ev : Event) (h : ev ∈ uploadEvents dir t c files) : ev.isDelete = false := by
  unfold uploadEvents at h
  rcases List.mem_map.mp h with ⟨f, -, rfl⟩
  rfl

theorem find?_first (l1 l2 : List SlackChannel) (c : SlackChannel) (nm : String)
    (h1 : ∀ x ∈ l1, x.name ≠ nm) (hc : c.name = nm) :
    (l1 ++ c :: l2).find? (fun x => x.name == nm) = some c := by
  induction l1 with
  | nil =>
    rw [List.nil_append]
    exact List.find?_cons_of_pos _ (by simp [hc])
  | cons a t ih =>
    rw [List.cons_append, List.find?_cons_of_neg]
    · exact ih (fun x hx => h1 x (List.mem_cons_of_mem a hx))
    · simp [h1 a (List.mem_cons_self a t)]

theorem getChannelId_found (nm : String) (env : Env)
    (l1 l2 : List SlackChannel) (c : SlackChannel)
    (hl : env.listChannelsResult = Except.ok (l1 ++ c :: l2))
    (h1 : ∀ x ∈ l1, x.name ≠ nm) (hc : c.name = nm) :
    getChannelId nm env = Except.ok c.id := by
  unfold getChannelId
  rw [hl]
  simp only [find?_first l1 l2 c nm h1 hc]

theorem getChannelId_missing (nm : String) (env : Env)
    (chans : List SlackChannel)
    (hl : env.listChannelsResult = Except.ok chans)
    (hn : ∀ x ∈ chans, x.name ≠ nm) :
    getChannelId nm env =
      Except.error ("Channel " ++ apos ++ nm ++ apos ++ " not found.") := by
  have hfind : chans.find? (fun c => c.name == nm) = none :=
    List.find?_eq_none.mpr (fun x hx => by simp [hn x hx])
  unfold getChannelId
  rw [hl]
  simp only [hfind]

theorem withResolve_fst (b : List Event × Outcome) :
    (withResolve b).1 = Event.listChannels :: b.1 := rfl

theorem withResolve_snd (b : List Event × Outcome) :
    (withResolve b).2 = b.2 := rfl

/- ------------------------------------------------------------------
Claim theorems.
------------------------------------------------------------------ -/

/-- C1 (counterexample): the action string `START`, whose lowercase form is
`start`, passes validation but does not perform the start behaviour — the
run posts no message and emits no output (it falls through to the upload
path and, with both roots absent, no-ops) — and its behaviour differs from
the action string `start` on the same oracle, so the selected behaviour
does not depend only on the lowercase form. -/
theorem C1_counterexample :
    jsToLower "START" = jsToLower "start"
    ∧ run { baseInputs with action := "START" } baseEnv ≠ run baseInputs baseEnv
    ∧ run { baseInputs with action := "START" } baseEnv
        = ([Event.listChannels], Outcome.success)
    ∧ (∀ e ∈ (run { baseInputs with action := "START" } baseEnv).1,
        Event.isPost e = false ∧ Event.isOutput e = false) := by
  decide

/-- C1 (amended): any action whose lowercase form is not among
start/upload/finish fails as a fatal configuration error before any remote
call; but branch selection is case-sensitive: exactly `start` selects the
start behaviour (never updates or uploads), exactly `finish` selects the
finish behaviour (never uploads or emits an output), and every other
validated action string — `upload` and all mixed-case variants of the three
modes — behaves exactly like `upload`. -/
theorem C1_dispatch (inp : Inputs) (env : Env) :
    (¬ (jsToLower inp.action = "start" ∨ jsToLower inp.action = "upload" ∨
        jsToLower inp.action = "finish") →
      run inp env = ([], Outcome.failed ("Unknown action: " ++ inp.action)))
    ∧ (inp.action = "start" →
        ∀ e ∈ (run inp env).1, Event.isUpdate e = false ∧ Event.isUpload e = false)
    ∧ (inp.action = "finish" →
        ∀ e ∈ (run inp env).1, Event.isUpload e = false ∧ Event.isOutput e = false)
    ∧ ((jsToLower inp.action = "start" ∨ jsToLower inp.action = "upload" ∨
        jsToLower inp.action = "finish") → inp.action ≠ "start" →
        inp.action ≠ "finish" → inp.threadId ≠ "" →
        run inp env = run { inp with action := "upload" } env) := by
  refine ⟨?_, ?_, ?_, ?_⟩
  · intro h
    exact run_invalid inp env h
  · intro ha
    have h1 : jsToLower inp.action = "start" := by rw [ha, jsToLower_start]
    have h2 : ¬ ((jsToLower inp.action = "upload" ∨ jsToLower inp.action = "finish") ∧
        inp.threadId = "") := by
      rintro ⟨h | h, -⟩ <;> rw [h1] at h <;> exact absurd h (by decide)
    cases hg : getChannelId inp.channel env with
    | error e =>
      rw [run_valid inp env (Or.inl h1) h2, afterResolve_error inp env e hg]
      simp [Event.isUpdate, Event.isUpload]
    | ok cid =>
      rw [run_start inp env cid ha hg]
      cases hp : env.postStartResult with
      | error e =>
        simp [withResolve, startBranch, hp, Event.isUpdate, Event.isUpload]
      | ok ts =>
        simp [withResolve, startBranch, hp, Event.isUpdate, Event.isUpload]
  · intro ha
    have h1 : jsToLower inp.action = "finish" := by rw [ha, jsToLower_finish]
    by_cases ht : inp.threadId = ""
    · rw [run_nothread inp env (Or.inr (Or.inr h1)) (Or.inr h1) ht]
      simp
    · cases hg : getChannelId inp.channel env with
      | error e =>
        rw [run_valid inp env (Or.inr (Or.inr h1)) (fun hc => ht hc.2),
          afterResolve_error inp env e hg]
        simp [Event.isUpload, Event.isOutput]
      | ok cid =>
        rw [run_finish inp env cid ha ht hg]
        cases hu : env.updateResult with
        | error e =>
          simp [withResolve, finishBranch, hu, Event.isUpload, Event.isOutput]
        | ok u =>
          simp [withResolve, finishBranch, hu, Event.isUpload, Event.isOutput]
  · intro h1 h3 h4 ht
    have h1u : jsToLower (Inputs.action { inp with action := "upload" }) = "upload" :=
      jsToLower_upload
    rw [run_valid inp env h1 (fun hc => ht hc.2),
      run_valid { inp with action := "upload" } env (Or.inr (Or.inl h1u))
        (fun hc => ht hc.2)]
    cases hg : getChannelId inp.channel env with
    | error e =>
      rw [afterResolve_error inp env e hg,
        afterResolve_error { inp with action := "upload" } env e hg]
    | ok cid =>
      rw [afterResolve_ok inp env cid hg,
        afterResolve_ok { inp with action := "upload" } env cid hg,
        dispatch_other inp env cid h3 h4,
        dispatch_other { inp with action := "upload" } env cid
          (show ("upload" : String) ≠ "start" by decide)
          (show ("upload" : String) ≠ "finish" by decide)]
      rfl

/-- C1 (witness): the invalid action `bogus` fails before any remote call,
and the validated mixed-case action `START` behaves exactly as `upload`. -/
theorem C1_witness :
    run { baseInputs with action := "bogus" } baseEnv
      = ([], Outcome.failed ("Unknown action: " ++ "bogus"))
    ∧ run { baseInputs with action := "START", threadId := "t1" } baseEnv
      = run { baseInputs with action := "upload", threadId := "t1" } baseEnv :=
  ⟨(C1_dispatch { baseInputs with action := "bogus" } baseEnv).1 (by decide),
   (C1_dispatch { baseInputs with action := "START", threadId := "t1" } baseEnv).2.2.2
     (by decide) (by decide) (by decide) (by decide)⟩

/-- C2: when neither artifact root exists, discovery yields the empty
sequence for each root (rather than an error), and the upload-mode
invocation completes as a no-op success after channel resolution. -/
theorem C2_absentRoots (inp : Inputs) (env : Env) (cid : String)
    (ha : inp.action = "upload") (ht : inp.threadId ≠ "")
    (hid : getChannelId inp.channel env = Except.ok cid)
    (hs : env.fs (effScreenshotsDir inp) = none)
    (hv : env.fs (effVideosDir inp) = none) :
    walkSync env.fs (effScreenshotsDir inp) ".png" = []
    ∧ walkSync env.fs (effVideosDir inp) ".mp4" = []
    ∧ run inp env = ([Event.listChannels], Outcome.success) := by
  have h1 := walkSync_absent env.fs (effScreenshotsDir inp) ".png" hs
  have h2 := walkSync_absent env.fs (effVideosDir inp) ".mp4" hv
  refine ⟨h1, h2, ?_⟩
  rw [run_upload inp env cid ha ht hid, uploadBranch_empty inp env cid h2 h1]
  rfl

/-- C2 (witness): on the oracle whose filesystem has no directory at all,
upload mode with a thread id no-ops successfully. -/
theorem C2_witness :
    walkSync baseEnv.fs (effScreenshotsDir uploadInp) ".png" = []
    ∧ walkSync baseEnv.fs (effVideosDir uploadInp) ".mp4" = []
    ∧ run uploadInp baseEnv = ([Event.listChannels], Outcome.success) :=
  C2_absentRoots uploadInp baseEnv "C123" rfl (by decide) rfl rfl rfl

/-- C3 (counterexample): with an empty thread identifier in upload mode the
run fails fatally with an empty trace — in particular the channel-listing
call does not occur before the failure, contrary to the claim that channel
resolution still occurs first. -/
theorem C3_counterexample :
    run { baseInputs with action := "upload" } baseEnv
      = ([], Outcome.failed "Action: upload requires thread-id.")
    ∧ Event.listChannels ∉ (run { baseInputs with action := "upload" } baseEnv).1 := by
  decide

/-- C3 (amended): for upload and finish modes an empty thread identifier is
a fatal configuration error with no side effects and no remote calls at
all — the thread-id validation precedes channel resolution, so the
channel-listing call does not occur. -/
theorem C3_emptyThreadValidation (inp : Inputs) (env : Env)
    (h2 : jsToLower inp.action = "upload" ∨ jsToLower inp.action = "finish")
    (h3 : inp.threadId = "") :
    run inp env
      = ([], Outcome.failed ("Action: " ++ inp.action ++ " requires thread-id."))
    ∧ Event.listChannels ∉ (run inp env).1 := by
  have hr := run_nothread inp env (Or.inr h2) h2 h3
  refine ⟨hr, ?_⟩
  rw [hr]
  simp

/-- C3 (witness): finish mode with the empty thread id fails with the
thread-id message and an empty trace. -/
theorem C3_witness :
    run { baseInputs with action := "finish" } baseEnv
      = ([], Outcome.failed ("Action: " ++ "finish" ++ " requires thread-id."))
    ∧ Event.listChannels ∉ (run { baseInputs with action := "finish" } baseEnv).1 :=
  C3_emptyThreadValidation { baseInputs with action := "finish" } baseEnv
    (Or.inr (by decide)) rfl

/-- C4: in upload mode with N ≥ 1 screenshots and M ≥ 1 videos, the trace
after channel resolution is exactly one pointer message, then the N
screenshot uploads in discovery order, then the M video uploads — every
screenshot upload initiated before any video upload. -/
theorem C4_uploadSequence (inp : Inputs) (env : Env) (cid : String)
    (S V : List String)
    (ha : inp.action = "upload") (ht : inp.threadId ≠ "")
    (hid : getChannelId inp.channel env = Except.ok cid)
    (hS : walkSync env.fs (effScreenshotsDir inp) ".png" = S)
    (hV : walkSync env.fs (effVideosDir inp) ".mp4" = V)
    (hSne : S ≠ []) (hVne : V ≠ [])
    (hp : env.pointerPostResult = Except.ok ())
    (hsok : ∀ f ∈ S, env.uploadResult (effScreenshotsDir inp ++ "/" ++ f)
      = Except.ok ()) :
    (run inp env).1 =
      Event.listChannels :: Event.postMessage (pointerPayload inp cid) ::
        (uploadEvents (effScreenshotsDir inp) inp.threadId cid S ++
         uploadEvents (effVideosDir inp) inp.threadId cid V)
    ∧ (run inp env).1.countP (fun e => e.isPost) = 1
    ∧ (uploadEvents (effScreenshotsDir inp) inp.threadId cid S).length = S.length
    ∧ (uploadEvents (effVideosDir inp) inp.threadId cid V).length = V.length := by
  have hne : ¬ (V.length ≤ 0 ∧ S.length ≤ 0) := by
    rintro ⟨hv0, -⟩
    exact hVne (List.length_eq_zero.mp (Nat.le_zero.mp hv0))
  have hub := uploadBranch_sok inp env cid S V hV hS hne hp
    (groupFirstError_none env (effScreenshotsDir inp) S hsok)
  have htr : (run inp env).1 =
      Event.listChannels :: Event.postMessage (pointerPayload inp cid) ::
        (uploadEvents (effScreenshotsDir inp) inp.threadId cid S ++
         uploadEvents (effVideosDir inp) inp.threadId cid V) := by
    rw [run_upload inp env cid ha ht hid, withResolve_fst, hub.1,
      List.cons_append]
  refine ⟨htr, ?_, ?_, ?_⟩
  · rw [htr, List.countP_cons, List.countP_cons, List.countP_append,
      countP_isPost_uploadEvents, countP_isPost_uploadEvents]
    simp [Event.isPost]
  · simp [uploadEvents]
  · simp [uploadEvents]

/-- C4 (witness): on the concrete artifact filesystem (two screenshots, one
video) the full trace is the listing call, the pointer message, both
screenshot uploads, then the video upload. -/
theorem C4_witness :
    (run uploadInp artEnv).1 =
      Event.listChannels :: Event.postMessage (pointerPayload uploadInp "C123") ::
        (uploadEvents "cypress/screenshots" "t1" "C123" ["a.png", "b.png"] ++
         uploadEvents "cypress/videos" "t1" "C123" ["v.mp4"])
    ∧ (run uploadInp artEnv).1.countP (fun e => e.isPost) = 1
    ∧ (uploadEvents "cypress/screenshots" "t1" "C123" ["a.png", "b.png"]).length = 2
    ∧ (uploadEvents "cypress/videos" "t1" "C123" ["v.mp4"]).length = 1 :=
  C4_uploadSequence uploadInp artEnv "C123" ["a.png", "b.png"] ["v.mp4"]
    rfl (by decide) rfl rfl rfl (by decide) (by decide) rfl (by decide)

/-- C5: if exactly one upload call of a group (screenshots or videos)
raises an error, the whole invocation is marked failed with that error
message, no delete call ever appears in the trace, and every screenshot
upload of the run remains in the trace (nothing is undone). -/
theorem C5_groupFailure (inp : Inputs) (env : Env) (cid : String)
    (S V : List String) (s e : String)
    (ha : inp.action = "upload") (ht : inp.threadId ≠ "")
    (hid : getChannelId inp.channel env = Except.ok cid)
    (hS : walkSync env.fs (effScreenshotsDir inp) ".png" = S)
    (hV : walkSync env.fs (effVideosDir inp) ".mp4" = V)
    (hp : env.pointerPostResult = Except.ok ())
    (hcase :
      (s ∈ S ∧ env.uploadResult (effScreenshotsDir inp ++ "/" ++ s) = Except.error e ∧
        ∀ t ∈ S, t ≠ s →
          env.uploadResult (effScreenshotsDir inp ++ "/" ++ t) = Except.ok ())
      ∨ ((∀ t ∈ S, env.uploadResult (effScreenshotsDir inp ++ "/" ++ t) = Except.ok ())
        ∧ s ∈ V ∧ env.uploadResult (effVideosDir inp ++ "/" ++ s) = Except.error e ∧
        ∀ t ∈ V, t ≠ s →
          env.uploadResult (effVideosDir inp ++ "/" ++ t) = Except.ok ())) :
    (run inp env).2 = Outcome.failed e
    ∧ (∀ ev ∈ (run inp env).1, Event.isDelete ev = false)
    ∧ (∀ t ∈ S, Event.uploadFile t (effScreenshotsDir inp ++ "/" ++ t)
        inp.threadId cid ∈ (run inp env).1) := by
  have hrun := run_upload inp env cid ha ht hid
  rcases hcase with ⟨hmem, herr, hrest⟩ | ⟨hallS, hmem, herr, hrest⟩
  · have hne : ¬ (V.length ≤ 0 ∧ S.length ≤ 0) := by
      rintro ⟨-, hs0⟩
      have hS0 : S = [] := List.length_eq_zero.mp (Nat.le_zero.mp hs0)
      rw [hS0] at hmem
      cases hmem
    have hserr := groupFirstError_single env (effScreenshotsDir inp) S s e
      hmem herr hrest
    have hub := uploadBranch_sfail inp env cid S V e hV hS hne hp hserr
    have htr : (run inp env).1 =
        Event.listChannels :: Event.postMessage (pointerPayload inp cid) ::
          uploadEvents (effScreenshotsDir inp) inp.threadId cid S := by
      rw [hrun, withResolve_fst, hub]
    have hout : (run inp env).2 = Outcome.failed e := by
      rw [hrun, withResolve_snd, hub]
    refine ⟨hout, ?_, ?_⟩
    · intro ev hev
      rw [htr] at hev
      rcases List.mem_cons.mp hev with rfl | hev2
      · rfl
      rcases List.mem_cons.mp hev2 with rfl | hev3
      · rfl
      exact isDelete_uploadEvents _ _ _ _ ev hev3
    · intro t htS
      rw [htr]
      exact List.mem_cons_of_mem _ (List.mem_cons_of_mem _
        (List.mem_map.mpr ⟨t, htS, rfl⟩))
  · have hne : ¬ (V.length ≤ 0 ∧ S.length ≤ 0) := by
      rintro ⟨hv0, -⟩
      have hV0 : V = [] := List.length_eq_zero.mp (Nat.le_zero.mp hv0)
      rw [hV0] at hmem
      cases hmem
    have hverr := groupFirstError_single env (effVideosDir inp) V s e
      hmem herr hrest
    have hub := uploadBranch_sok inp env cid S V hV hS hne hp
      (groupFirstError_none env (effScreenshotsDir inp) S hallS)
    have htr : (run inp env).1 =
        Event.listChannels :: Event.postMessage (pointerPayload inp cid) ::
          (uploadEvents (effScreenshotsDir inp) inp.threadId cid S ++
           uploadEvents (effVideosDir inp) inp.threadId cid V) := by
      rw [hrun, withResolve_fst, hub.1, List.cons_append]
    have hout : (run inp env).2 = Outcome.failed e := by
      rw [hrun, withResolve_snd, hub.2, hverr]
    refine ⟨hout, ?_, ?_⟩
    · intro ev hev
      rw [htr] at hev
      rcases List.mem_cons.mp hev with rfl | hev2
      · rfl
      rcases List.mem_cons.mp hev2 with rfl | hev3
      · rfl
      rcases List.mem_append.mp hev3 with h | h
      · exact isDelete_uploadEvents _ _ _ _ ev h
      · exact isDelete_uploadEvents _ _ _ _ ev h
    · intro t htS
      rw [htr]
      exact List.mem_cons_of_mem _ (List.mem_cons_of_mem _
        (List.mem_append_left _ (List.mem_map.mpr ⟨t, htS, rfl⟩)))

/-- C5 (witness): on the oracle where uploading the second screenshot
fails with `boom`, the run is marked failed with `boom`, no delete call
appears, and both screenshot uploads are in the trace. -/
theorem C5_witness :
    (run uploadInp failEnv).2 = Outcome.failed "boom"
    ∧ (∀ ev ∈ (run uploadInp failEnv).1, Event.isDelete ev = false)
    ∧ (∀ t ∈ (["a.png", "b.png"] : List String),
        Event.uploadFile t (effScreenshotsDir uploadInp ++ "/" ++ t) "t1" "C123"
          ∈ (run uploadInp failEnv).1) :=
  C5_groupFailure uploadInp failEnv "C123" ["a.png", "b.png"] ["v.mp4"]
    "b.png" "boom" rfl (by decide) rfl rfl rfl rfl
    (Or.inl ⟨by decide, rfl, by decide⟩)

/-- C6: in finish mode the status string exactly `success` selects the
positive icon/color pair and every other status (including the empty one)
selects the negative pair; the single update call targets the supplied
thread id and interpolates the status into the status field. -/
theorem C6_finishStatus (inp : Inputs) (env : Env) (cid : String)
    (ha : inp.action = "finish") (ht : inp.threadId ≠ "")
    (hid : getChannelId inp.channel env = Except.ok cid)
    (hu : env.updateResult = Except.ok ()) :
    run inp env = ([Event.listChannels,
      Event.updateMessage cid inp.threadId
        (if inp.status = "success" then "#64f244" else "#e30d0d")
        ((if inp.status = "success" then ":ok_hand:" else ":poop:") ++ " " ++
          inp.messageText)
        (runUrlText env)
        ("*Status:* " ++ (if inp.status = "" then "false" else inp.status))
        ("*Author:* @" ++ inp.author)],
     Outcome.success) := by
  rw [run_finish inp env cid ha ht hid]
  simp [withResolve, finishBranch, hu, getStatusInput_eqString_success,
    getStatusInput_render]

/-- C6 (witness): the spec scenario — finish with status `failure` on
thread `169000.1` issues one update call with icon `:poop:`, color
`#e30d0d` and status field `failure`. -/
theorem C6_witness :
    run finishFailInp baseEnv
      = ([Event.listChannels,
          Event.updateMessage "C123" "169000.1" "#e30d0d"
            (":poop:" ++ " " ++ "Deploy") (runUrlText baseEnv)
            ("*Status:* " ++ "failure") ("*Author:* @" ++ "alice")],
         Outcome.success) :=
  C6_finishStatus finishFailInp baseEnv "C123" rfl (by decide) rfl rfl

/-- C7: in start mode, on a successful post, the `thread-id` output equals
the identifier the remote call returned, unchanged. -/
theorem C7_startThreadOutput (inp : Inputs) (env : Env) (cid ts : String)
    (ha : inp.action = "start")
    (hid : getChannelId inp.channel env = Except.ok cid)
    (hp : env.postStartResult = Except.ok ts) :
    run inp env = ([Event.listChannels,
      Event.postMessage (startPayload inp env cid),
      Event.setOutput "thread-id" ts], Outcome.success)
    ∧ Event.setOutput "thread-id" ts ∈ (run inp env).1 := by
  have heq : run inp env = ([Event.listChannels,
      Event.postMessage (startPayload inp env cid),
      Event.setOutput "thread-id" ts], Outcome.success) := by
    rw [run_start inp env cid ha hid]
    unfold withResolve startBranch
    rw [hp]
  refine ⟨heq, ?_⟩
  rw [heq]
  simp

/-- C7 (witness): the base oracle returns `169000.1` from the post, and the
run emits exactly that as the `thread-id` output. -/
theorem C7_witness :
    run baseInputs baseEnv = ([Event.listChannels,
      Event.postMessage (startPayload baseInputs baseEnv "C123"),
      Event.setOutput "thread-id" "169000.1"], Outcome.success)
    ∧ Event.setOutput "thread-id" "169000.1" ∈ (run baseInputs baseEnv).1 :=
  C7_startThreadOutput baseInputs baseEnv "C123" "169000.1" rfl rfl rfl

/-- C8: channel resolution matches the display name exactly and
case-sensitively against the listing response and returns the first match;
when the name is absent, resolution fails and the run makes no
message-posting call afterwards. -/
theorem C8_channelResolution (nm : String) (env : Env)
    (chans l1 l2 : List SlackChannel) (c : SlackChannel) (inp : Inputs)
    (hl : env.listChannelsResult = Except.ok chans) :
    (chans = l1 ++ c :: l2 → (∀ x ∈ l1, x.name ≠ nm) → c.name = nm →
      getChannelId nm env = Except.ok c.id)
    ∧ ((∀ x ∈ chans, x.name ≠ nm) →
      getChannelId nm env =
        Except.error ("Channel " ++ apos ++ nm ++ apos ++ " not found."))
    ∧ ((∀ x ∈ chans, x.name ≠ nm) → inp.channel = nm →
      (jsToLower inp.action = "start" ∨ jsToLower inp.action = "upload" ∨
        jsToLower inp.action = "finish") →
      ¬ ((jsToLower inp.action = "upload" ∨ jsToLower inp.action = "finish") ∧
        inp.threadId = "") →
      run inp env = ([Event.listChannels],
        Outcome.failed ("Channel " ++ apos ++ nm ++ apos ++ " not found."))
      ∧ ∀ e ∈ (run inp env).1, Event.isPost e = false) := by
  refine ⟨?_, ?_, ?_⟩
  · intro he h1 hc
    subst he
    exact getChannelId_found nm env l1 l2 c hl h1 hc
  · intro hn
    exact getChannelId_missing nm env chans hl hn
  · intro hn hch h1 h2
    subst hch
    have hres := getChannelId_missing inp.channel env chans hl hn
    have hr : run inp env = ([Event.listChannels],
        Outcome.failed
          ("Channel " ++ apos ++ inp.channel ++ apos ++ " not found.")) := by
      rw [run_valid inp env h1 h2, afterResolve_error inp env _ hres]
    refine ⟨hr, ?_⟩
    rw [hr]
    intro e he
    rcases List.mem_singleton.mp he with rfl
    rfl

/-- C8 (witness): on a listing with a decoy channel and two channels named
`ci`, resolution returns the first `ci` identifier; on a listing without
the requested name, the run fails after the single listing call with no
message posted. -/
theorem C8_witness :
    getChannelId "ci" dupEnv = Except.ok "C123"
    ∧ run { baseInputs with channel := "nope" } baseEnv
        = ([Event.listChannels],
           Outcome.failed ("Channel " ++ apos ++ "nope" ++ apos ++ " not found.")) :=
  ⟨(C8_channelResolution "ci" dupEnv dupChannels [⟨"dev", "C0"⟩]
      [⟨"ci", "C999"⟩] sampleChannel baseInputs rfl).1 (by decide) (by decide) rfl,
   ((C8_channelResolution "nope" baseEnv [sampleChannel] [] [] sampleChannel
      { baseInputs with channel := "nope" } rfl).2.2 (by decide) rfl
      (Or.inl (by decide)) (by decide)).1⟩

/-- C9: when both artifact roots yield zero matching files, upload mode
completes successfully as a no-op — no pointer message and no upload call. -/
theorem C9_noMatchesNoOp (inp : Inputs) (env : Env) (cid : String)
    (ha : inp.action = "upload") (ht : inp.threadId ≠ "")
    (hid : getChannelId inp.channel env = Except.ok cid)
    (hs : walkSync env.fs (effScreenshotsDir inp) ".png" = [])
    (hv : walkSync env.fs (effVideosDir inp) ".mp4" = []) :
    run inp env = ([Event.listChannels], Outcome.success)
    ∧ (∀ e ∈ (run inp env).1, Event.isPost e = false ∧ Event.isUpload e = false) := by
  have hr : run inp env = ([Event.listChannels], Outcome.success) := by
    rw [run_upload inp env cid ha ht hid, uploadBranch_empty inp env cid hv hs]
    rfl
  refine ⟨hr, ?_⟩
  rw [hr]
  intro e he
  rcases List.mem_singleton.mp he with rfl
  exact ⟨rfl, rfl⟩

/-- C9 (witness): on the oracle whose roots exist but hold no matching
file, upload mode is a successful no-op after the listing call. -/
theorem C9_witness :
    run uploadInp noMatchEnv = ([Event.listChannels], Outcome.success)
    ∧ (∀ e ∈ (run uploadInp noMatchEnv).1,
        Event.isPost e = false ∧ Event.isUpload e = false) :=
  C9_noMatchesNoOp uploadInp noMatchEnv "C123" rfl (by decide) rfl rfl rfl

/-- C10: in finish mode with an empty status input the coerced value is the
boolean `false`, the update call renders the status field as the literal
text `false`, and the negative icon/color pair is selected. -/
theorem C10_emptyStatusFalse (inp : Inputs) (env : Env) (cid : String)
    (ha : inp.action = "finish") (ht : inp.threadId ≠ "")
    (hst : inp.status = "")
    (hid : getChannelId inp.channel env = Except.ok cid)
    (hu : env.updateResult = Except.ok ()) :
    getStatusInput inp.status = StrOrFalse.fls
    ∧ run inp env = ([Event.listChannels,
        Event.updateMessage cid inp.threadId "#e30d0d"
          (":poop:" ++ " " ++ inp.messageText) (runUrlText env)
          ("*Status:* " ++ "false") ("*Author:* @" ++ inp.author)],
       Outcome.success) := by
  constructor
  · rw [hst]
    rfl
  · rw [run_finish inp env cid ha ht hid]
    simp [withResolve, finishBranch, hu, hst, getStatusInput,
      StrOrFalse.eqString, StrOrFalse.render]

/-- C10 (witness): finish mode with the status input left empty renders
`*Status:* false` with the negative pair. -/
theorem C10_witness :
    getStatusInput finishEmptyInp.status = StrOrFalse.fls
    ∧ run finishEmptyInp baseEnv
      = ([Event.listChannels,
          Event.updateMessage "C123" "169000.1" "#e30d0d"
            (":poop:" ++ " " ++ "Deploy") (runUrlText baseEnv)
            ("*Status:* " ++ "false") ("*Author:* @" ++ "alice")],
         Outcome.success) :=
  C10_emptyStatusFalse finishEmptyInp baseEnv "C123" rfl (by decide) rfl rfl rfl

end SlackAction
